import Mathlib

/-
Shallow embedding of src/vue-client/src/pages/groupList/GroupListItem.js.

The file defines the `GroupListItem` tree-node type, its template-based
constructor, and three builder functions (`fromConnection`,
`fromConnectionGroup`, `fromSharingProfile`) that convert domain entities
(connections, connection groups, sharing profiles) into `GroupListItem`
trees.

JavaScript primitive values that flow through the code (flags, names,
identifiers, active-connection counts) are modelled by `JSVal`; absent
collections (`undefined`/`null` object fields holding arrays) are modelled
by `Option (List _)`, since in JS an array - even an empty one - is truthy
while `undefined` and `null` are falsy.

Closures that read a captured mutable entity live (the
`getActiveConnections` accessors at lines 200-205 and 290-296 of the
source) are modelled as functions receiving the entity's state at call
time (`Entity -> JSVal`): mutating the JS object between construction and
call corresponds to applying the accessor to a different `Entity` value.
-/

/-- A JavaScript primitive value as it occurs in this file: `undefined`,
`null`, booleans, numbers (the file only ever deals in integral counts and
weights, so `Int` suffices), and strings. -/
inductive JSVal : Type where
  | undefined : JSVal
  | null : JSVal
  | bool : Bool → JSVal
  | num : Int → JSVal
  | str : String → JSVal
deriving DecidableEq, Repr

/-- JavaScript truthiness of a primitive value: `undefined`, `null`,
`false`, `0` and `""` are falsy, everything else is truthy. -/
def JSVal.truthy : JSVal → Bool
  | .undefined => false
  | .null => false
  | .bool b => b
  | .num n => n != 0
  | .str s => s != ""

/-- A sharing profile domain entity: `{identifier, name}` (spec section 6). -/
structure SharingProfile : Type where
  identifier : JSVal
  name : JSVal
deriving DecidableEq, Repr

/-- A connection domain entity:
`{identifier, name, protocol, activeConnections?, sharingProfiles?}`
(spec section 6). An absent/`null` `sharingProfiles` field is `none`;
a present array (possibly empty) is `some`. -/
structure Connection : Type where
  identifier : JSVal
  name : JSVal
  protocol : JSVal
  activeConnections : JSVal
  sharingProfiles : Option (List SharingProfile)
deriving DecidableEq, Repr

/-- A connection group domain entity:
`{identifier, name, type, activeConnections?, childConnections?,
childConnectionGroups?}` (spec section 6). Recursive through
`childConnectionGroups`, hence an inductive with explicit projections. -/
inductive ConnectionGroup : Type where
  | mk : (identifier : JSVal) → (name : JSVal) → (type : JSVal) →
      (activeConnections : JSVal) →
      (childConnections : Option (List Connection)) →
      (childConnectionGroups : Option (List ConnectionGroup)) →
      ConnectionGroup

def ConnectionGroup.identifier : ConnectionGroup → JSVal
  | .mk i _ _ _ _ _ => i

def ConnectionGroup.name : ConnectionGroup → JSVal
  | .mk _ n _ _ _ _ => n

def ConnectionGroup.type : ConnectionGroup → JSVal
  | .mk _ _ t _ _ _ => t

def ConnectionGroup.activeConnections : ConnectionGroup → JSVal
  | .mk _ _ _ a _ _ => a

def ConnectionGroup.childConnections : ConnectionGroup → Option (List Connection)
  | .mk _ _ _ _ c _ => c

def ConnectionGroup.childConnectionGroups : ConnectionGroup → Option (List ConnectionGroup)
  | .mk _ _ _ _ _ g => g

/-- Modelled from the spec: the balancing type constant
`ConnectionGroup.Type.BALANCING`, imported from the external module
`@/common/types/ConnectionGroup` which is not part of this repository
fragment. The spec only requires it to be a distinguished constant. -/
def ConnectionGroupType.BALANCING : JSVal := JSVal.str "BALANCING"

/-- The current state of some domain entity, as a closure capturing a
mutable JS object sees it at call time. -/
inductive Entity : Type where
  | conn : Connection → Entity
  | grp : ConnectionGroup → Entity
  | prof : SharingProfile → Entity

/-- JS property access `entity.activeConnections` on whichever entity a
closure captured; sharing profiles have no such property, so the access
yields `undefined`. -/
def Entity.activeConnections : Entity → JSVal
  | .conn c => c.activeConnections
  | .grp g => g.activeConnections
  | .prof _ => JSVal.undefined

/-- The type of the externally supplied counter callbacks
(`countActiveConnections` / `countActiveConnectionGroups`): they receive
the data source identifier and the (live) entity and return a count. -/
def Counter : Type := String → Entity → JSVal

/-- `GroupListItem.Type.CONNECTION` (source line 354). -/
def GroupListItemType.CONNECTION : String := "connection"

/-- `GroupListItem.Type.CONNECTION_GROUP` (source line 362). -/
def GroupListItemType.CONNECTION_GROUP : String := "connection-group"

/-- `GroupListItem.Type.SHARING_PROFILE` (source line 370). -/
def GroupListItemType.SHARING_PROFILE : String := "sharing-profile"

/-- The `GroupListItem` tree node (source lines 4-144). Recursive through
`children`, hence an inductive with explicit projections. The
`getActiveConnections` accessor is a function of the captured entity's
current state. The default `getClientIdentifier` closure (lines 102-123)
is a pure function of the node's own immutable fields and no caller in
this file ever overrides it, so it is modelled as the standalone function
`GroupListItem.getClientIdentifier` below rather than a stored field. -/
inductive GroupListItem : Type where
  | mk : (dataSource : JSVal) → (identifier : JSVal) → (name : JSVal) →
      (protocol : JSVal) → (children : List GroupListItem) →
      (type : JSVal) → (expandable : JSVal) → (balancing : JSVal) →
      (expanded : JSVal) → (getActiveConnections : Entity → JSVal) →
      (wrappedItem : Option Entity) → (weight : JSVal) → GroupListItem

def GroupListItem.dataSource : GroupListItem → JSVal
  | .mk d _ _ _ _ _ _ _ _ _ _ _ => d

def GroupListItem.identifier : GroupListItem → JSVal
  | .mk _ i _ _ _ _ _ _ _ _ _ _ => i

def GroupListItem.name : GroupListItem → JSVal
  | .mk _ _ n _ _ _ _ _ _ _ _ _ => n

def GroupListItem.protocol : GroupListItem → JSVal
  | .mk _ _ _ p _ _ _ _ _ _ _ _ => p

def GroupListItem.children : GroupListItem → List GroupListItem
  | .mk _ _ _ _ c _ _ _ _ _ _ _ => c

def GroupListItem.type : GroupListItem → JSVal
  | .mk _ _ _ _ _ t _ _ _ _ _ _ => t

def GroupListItem.expandable : GroupListItem → JSVal
  | .mk _ _ _ _ _ _ e _ _ _ _ _ => e

def GroupListItem.balancing : GroupListItem → JSVal
  | .mk _ _ _ _ _ _ _ b _ _ _ _ => b

def GroupListItem.expanded : GroupListItem → JSVal
  | .mk _ _ _ _ _ _ _ _ e _ _ _ => e

def GroupListItem.getActiveConnections : GroupListItem → (Entity → JSVal)
  | .mk _ _ _ _ _ _ _ _ _ g _ _ => g

def GroupListItem.wrappedItem : GroupListItem → Option Entity
  | .mk _ _ _ _ _ _ _ _ _ _ w _ => w

def GroupListItem.weight : GroupListItem → JSVal
  | .mk _ _ _ _ _ _ _ _ _ _ _ w => w

/-- The template object passed to the `GroupListItem` constructor. A field
absent from the JS template object reads as `undefined`; the collection
and function fields use `none` for absent. -/
structure Template : Type where
  dataSource : JSVal := JSVal.undefined
  identifier : JSVal := JSVal.undefined
  name : JSVal := JSVal.undefined
  protocol : JSVal := JSVal.undefined
  children : Option (List GroupListItem) := none
  type : JSVal := JSVal.undefined
  expandable : JSVal := JSVal.undefined
  balancing : JSVal := JSVal.undefined
  expanded : JSVal := JSVal.undefined
  getActiveConnections : Option (Entity → JSVal) := none
  wrappedItem : Option Entity := none
  weight : JSVal := JSVal.undefined

/-- The `GroupListItem` constructor (source lines 4-144). Copies the
template fields; `this.children = template.children || []` defaults to the
empty array (an array, even empty, is truthy, so only absent/`null`
children are replaced); `this.getActiveConnections` defaults to a closure
returning `null`; `this.weight = template.weight || 0` replaces any falsy
weight by `0`. -/
def GroupListItem.ofTemplate (template : Template) : GroupListItem :=
  GroupListItem.mk
    template.dataSource
    template.identifier
    template.name
    template.protocol
    (template.children.getD [])
    template.type
    template.expandable
    template.balancing
    template.expanded
    (template.getActiveConnections.getD (fun _ => JSVal.null))
    template.wrappedItem
    (if template.weight.truthy then template.weight else JSVal.num 0)

/-- Modelled from the spec: the two kind tags of the external
`ClientIdentifier.Types` enumeration used at source lines 107 and 116; the
external module `@/common/navigation/ClientIdentifier` is not part of this
repository fragment. The spec only requires them to be distinguished
tags. -/
def ClientIdentifierTypes.CONNECTION : String := "c"

/-- Modelled from the spec: see `ClientIdentifierTypes.CONNECTION`. -/
def ClientIdentifierTypes.CONNECTION_GROUP : String := "g"

/-- A rendering of a `JSVal` used by the modelled identifier encoder. -/
def JSVal.render : JSVal → String
  | .undefined => "undefined"
  | .null => "null"
  | .bool b => if b then "true" else "false"
  | .num n => toString n
  | .str s => s

/-- Modelled from the spec: the external identifier encoder
`ClientIdentifier.toString`, a pure function mapping
`{dataSource, type, id}` to an opaque string identifier (spec section 6).
Modelled as an injective concatenation; its exact format is outside this
repository fragment and no claim depends on it. -/
def ClientIdentifierToString (dataSource : JSVal) (type : String)
    (id : JSVal) : String :=
  type ++ "/" ++ dataSource.render ++ "/" ++ id.render

/-- The default `getClientIdentifier` closure (source lines 102-123): for
a node of type `connection` or `connection-group` it encodes a client
identifier from the node's own fields; for every other type it returns
`null` (modelled as `none`). No caller in this file supplies a
`template.getClientIdentifier` override, so every node built by this file
uses this default. -/
def GroupListItem.getClientIdentifier (item : GroupListItem) :
    Option String :=
  if item.type = JSVal.str GroupListItemType.CONNECTION then
    some (ClientIdentifierToString item.dataSource
      ClientIdentifierTypes.CONNECTION item.identifier)
  else if item.type = JSVal.str GroupListItemType.CONNECTION_GROUP then
    some (ClientIdentifierToString item.dataSource
      ClientIdentifierTypes.CONNECTION_GROUP item.identifier)
  else
    none

/-- `GroupListItem.fromSharingProfile` (source lines 319-336): builds a
node from a sharing profile; no children, default accessors, type
`sharing-profile`. -/
def GroupListItem.fromSharingProfile (dataSource : String)
    (sharingProfile : SharingProfile) : GroupListItem :=
  GroupListItem.ofTemplate
    { name := sharingProfile.name
      identifier := sharingProfile.identifier
      dataSource := JSVal.str dataSource
      type := JSVal.str GroupListItemType.SHARING_PROFILE
      wrappedItem := some (Entity.prof sharingProfile) }

/-- `GroupListItem.fromConnection` (source lines 171-211): builds a node
from a connection. Sharing-profile children are added only when
`connection.sharingProfiles` is truthy (present) and
`includeSharingProfiles !== false` (JS strict inequality against the
boolean `false`). The JS `forEach`/`push` loop over a fresh array is the
map over the source list, preserving source order. The source passes
`countActiveConnections` as a third argument to `fromSharingProfile`,
which declares only two parameters and ignores it; the translation drops
it accordingly. The `getActiveConnections` closure receives the captured
connection's state at call time. -/
def GroupListItem.fromConnection (dataSource : String)
    (connection : Connection) (includeSharingProfiles : JSVal)
    (countActiveConnections : Option Counter) : GroupListItem :=
  let children : List GroupListItem :=
    match connection.sharingProfiles with
    | some profiles =>
        if includeSharingProfiles ≠ JSVal.bool false then
          profiles.map fun child =>
            GroupListItem.fromSharingProfile dataSource child
        else []
    | none => []
  GroupListItem.ofTemplate
    { name := connection.name
      identifier := connection.identifier
      protocol := connection.protocol
      dataSource := JSVal.str dataSource
      expandable := JSVal.bool (includeSharingProfiles ≠ JSVal.bool false)
      type := JSVal.str GroupListItemType.CONNECTION
      children := some children
      getActiveConnections := some fun live =>
        match countActiveConnections with
        | some count => count dataSource live
        | none => live.activeConnections
      wrappedItem := some (Entity.conn connection) }

/-- Any member of the list stored under `childConnectionGroups` is
structurally smaller than the group itself (termination of the recursive
group builder). -/
theorem ConnectionGroup.sizeOf_lt_of_mem_childConnectionGroups
    {g : ConnectionGroup} {gs : List ConnectionGroup}
    {child : ConnectionGroup} (hgs : g.childConnectionGroups = some gs)
    (hmem : child ∈ gs) : sizeOf child < sizeOf g := by
  cases g with
  | mk i n t a cc cg =>
    simp only [ConnectionGroup.childConnectionGroups] at hgs
    subst hgs
    have h1 : sizeOf child < sizeOf gs := List.sizeOf_lt_of_mem hmem
    simp only [ConnectionGroup.mk.sizeOf_spec, Option.some.sizeOf_spec]
    omega

/-- `GroupListItem.fromConnectionGroup` (source lines 251-302): builds a
node from a connection group. Child connections are added when
`connectionGroup.childConnections` is truthy and
`includeConnections !== false`; child groups are added unconditionally
when `connectionGroup.childConnectionGroups` is truthy. The two JS
`forEach`/`push` loops over the single fresh `children` array become the
two maps appended in that order. The source's `getActiveConnections`
closure contains a stray `console.log` call (line 291), a console side
effect with no influence on state or result, so it has no counterpart
here. -/
def GroupListItem.fromConnectionGroup (dataSource : String)
    (connectionGroup : ConnectionGroup)
    (includeConnections includeSharingProfiles : JSVal)
    (countActiveConnections countActiveConnectionGroups : Option Counter) :
    GroupListItem :=
  let connectionChildren : List GroupListItem :=
    match connectionGroup.childConnections with
    | some cs =>
        if includeConnections ≠ JSVal.bool false then
          cs.map fun child =>
            GroupListItem.fromConnection dataSource child
              includeSharingProfiles countActiveConnections
        else []
    | none => []
  let groupChildren : List GroupListItem :=
    match hgs : connectionGroup.childConnectionGroups with
    | some gs =>
        gs.attach.map fun child =>
          GroupListItem.fromConnectionGroup dataSource child.1
            includeConnections includeSharingProfiles
            countActiveConnections countActiveConnectionGroups
    | none => []
  GroupListItem.ofTemplate
    { name := connectionGroup.name
      identifier := connectionGroup.identifier
      dataSource := JSVal.str dataSource
      type := JSVal.str GroupListItemType.CONNECTION_GROUP
      balancing := JSVal.bool (connectionGroup.type = ConnectionGroupType.BALANCING)
      expandable := JSVal.bool true
      children := some (connectionChildren ++ groupChildren)
      getActiveConnections := some fun live =>
        match countActiveConnectionGroups with
        | some count => count dataSource live
        | none => live.activeConnections
      wrappedItem := some (Entity.grp connectionGroup) }
termination_by sizeOf connectionGroup
decreasing_by
  exact ConnectionGroup.sizeOf_lt_of_mem_childConnectionGroups hgs child.2

/-- A concrete sharing profile used by witnesses. -/
def exProfile1 : SharingProfile := ⟨JSVal.str "p1", JSVal.str "P1"⟩

/-- A second concrete sharing profile used by witnesses. -/
def exProfile2 : SharingProfile := ⟨JSVal.str "p2", JSVal.str "P2"⟩

/-- A concrete connection with two sharing profiles, used by witnesses. -/
def exConnection : Connection :=
  ⟨JSVal.str "c", JSVal.str "C", JSVal.str "vnc", JSVal.num 3,
    some [exProfile1, exProfile2]⟩

/-- A concrete leaf connection group, used by witnesses. -/
def exLeafGroup : ConnectionGroup :=
  ConnectionGroup.mk (JSVal.str "h") (JSVal.str "H") JSVal.undefined
    JSVal.undefined none none

/-- A concrete connection group with one child connection and one child
group, used by witnesses. -/
def exGroup : ConnectionGroup :=
  ConnectionGroup.mk (JSVal.str "g") (JSVal.str "G") JSVal.undefined
    JSVal.undefined (some [exConnection]) (some [exLeafGroup])

/-- C1: for every connection group whose `childConnections` and
`childConnectionGroups` are both present, `fromConnectionGroup` (with
`includeConnections` true) places the nodes built from the child
connections, in source order, before the nodes built from the child
connection groups, in source order, in the resulting `children`
sequence. -/
theorem fromConnectionGroup_children_order (dataSource : String)
    (g : ConnectionGroup) (cs : List Connection) (gs : List ConnectionGroup)
    (includeSharingProfiles : JSVal) (cac cacg : Option Counter)
    (h1 : g.childConnections = some cs)
    (h2 : g.childConnectionGroups = some gs) :
    (GroupListItem.fromConnectionGroup dataSource g (JSVal.bool true)
        includeSharingProfiles cac cacg).children
      = (cs.map fun child => GroupListItem.fromConnection dataSource child
          includeSharingProfiles cac)
        ++ (gs.map fun child => GroupListItem.fromConnectionGroup dataSource
            child (JSVal.bool true) includeSharingProfiles cac cacg) := by
  rw [GroupListItem.fromConnectionGroup]
  simp only [h1, h2, GroupListItem.ofTemplate, GroupListItem.children,
    Option.getD_some, List.map_subtype, List.unattach_attach]
  simp
  split
  · rename_i gs2 heq
    rw [h2] at heq
    injection heq with h3
    subst h3
    rfl
  · rename_i heq
    rw [h2] at heq
    cases heq

/-- Witness for C1 at a concrete group with one child connection and one
child connection group. -/
theorem fromConnectionGroup_children_order_witness :
    (exGroup.childConnections = some [exConnection])
    ∧ (exGroup.childConnectionGroups = some [exLeafGroup])
    ∧ (GroupListItem.fromConnectionGroup "ds" exGroup (JSVal.bool true)
        (JSVal.bool true) none none).children
      = [GroupListItem.fromConnection "ds" exConnection (JSVal.bool true)
          none,
         GroupListItem.fromConnectionGroup "ds" exLeafGroup
          (JSVal.bool true) (JSVal.bool true) none none] :=
  ⟨rfl, rfl,
    fromConnectionGroup_children_order "ds" exGroup [exConnection]
      [exLeafGroup] (JSVal.bool true) none none rfl rfl⟩

/-- C2: for every connection whose `sharingProfiles` field is the
two-element sequence `[p1, p2]`, `fromConnection` with
`includeSharingProfiles = true` produces a node whose children sequence
has exactly the two nodes built from `p1` and `p2`, in that order, each of
type `sharing-profile`. -/
theorem fromConnection_two_sharing_profiles (dataSource : String)
    (connection : Connection) (p1 p2 : SharingProfile)
    (cac : Option Counter)
    (h : connection.sharingProfiles = some [p1, p2]) :
    (GroupListItem.fromConnection dataSource connection (JSVal.bool true)
        cac).children
      = [GroupListItem.fromSharingProfile dataSource p1,
         GroupListItem.fromSharingProfile dataSource p2]
    ∧ (GroupListItem.fromSharingProfile dataSource p1).type
        = JSVal.str GroupListItemType.SHARING_PROFILE
    ∧ (GroupListItem.fromSharingProfile dataSource p2).type
        = JSVal.str GroupListItemType.SHARING_PROFILE := by
  refine ⟨?_, rfl, rfl⟩
  simp [GroupListItem.fromConnection, h, GroupListItem.ofTemplate,
    GroupListItem.children]

/-- Witness for C2 at a concrete connection with two sharing profiles. -/
theorem fromConnection_two_sharing_profiles_witness :
    (exConnection.sharingProfiles = some [exProfile1, exProfile2])
    ∧ ((GroupListItem.fromConnection "ds" exConnection (JSVal.bool true)
        none).children
      = [GroupListItem.fromSharingProfile "ds" exProfile1,
         GroupListItem.fromSharingProfile "ds" exProfile2]
    ∧ (GroupListItem.fromSharingProfile "ds" exProfile1).type
        = JSVal.str GroupListItemType.SHARING_PROFILE
    ∧ (GroupListItem.fromSharingProfile "ds" exProfile2).type
        = JSVal.str GroupListItemType.SHARING_PROFILE) :=
  ⟨rfl, fromConnection_two_sharing_profiles "ds" exConnection exProfile1
    exProfile2 none rfl⟩

/-- C3: for every connection, `fromConnection` with
`includeSharingProfiles = false` produces a node with empty children,
regardless of any sharing profiles on the source, and with
`expandable = false`. -/
theorem fromConnection_exclude_sharing_profiles (dataSource : String)
    (connection : Connection) (cac : Option Counter) :
    (GroupListItem.fromConnection dataSource connection (JSVal.bool false)
        cac).children = []
    ∧ (GroupListItem.fromConnection dataSource connection (JSVal.bool false)
        cac).expandable = JSVal.bool false := by
  cases hsp : connection.sharingProfiles with
  | none =>
      simp [GroupListItem.fromConnection, hsp, GroupListItem.ofTemplate,
        GroupListItem.children, GroupListItem.expandable]
  | some profiles =>
      simp [GroupListItem.fromConnection, hsp, GroupListItem.ofTemplate,
        GroupListItem.children, GroupListItem.expandable]

/-- C4: for every connection group, including one with absent or empty
child collections, `fromConnectionGroup` returns a node with
`expandable = true`. -/
theorem fromConnectionGroup_always_expandable (dataSource : String)
    (g : ConnectionGroup) (includeConnections includeSharingProfiles : JSVal)
    (cac cacg : Option Counter) :
    (GroupListItem.fromConnectionGroup dataSource g includeConnections
        includeSharingProfiles cac cacg).expandable = JSVal.bool true := by
  rw [GroupListItem.fromConnectionGroup]
  rfl

/-- C5: for every connection group, the `balancing` flag of the node
returned by `fromConnectionGroup` is `true` exactly when the source
group's `type` equals the balancing type constant, and is `false` for
every other type value. -/
theorem fromConnectionGroup_balancing_iff (dataSource : String)
    (g : ConnectionGroup) (includeConnections includeSharingProfiles : JSVal)
    (cac cacg : Option Counter) :
    ((GroupListItem.fromConnectionGroup dataSource g includeConnections
        includeSharingProfiles cac cacg).balancing = JSVal.bool true
      ↔ g.type = ConnectionGroupType.BALANCING)
    ∧ ((GroupListItem.fromConnectionGroup dataSource g includeConnections
        includeSharingProfiles cac cacg).balancing = JSVal.bool false
      ↔ g.type ≠ ConnectionGroupType.BALANCING) := by
  rw [GroupListItem.fromConnectionGroup]
  by_cases h : g.type = ConnectionGroupType.BALANCING <;>
    simp [h, GroupListItem.ofTemplate, GroupListItem.balancing]

/-- C6: for nodes built by `fromConnection` or `fromConnectionGroup`, when
a counter function is supplied, every call of `getActiveConnections`
invokes the counter with the data source identifier and the (live) source
entity and returns its result, ignoring the entity's `activeConnections`
value; when no counter is supplied, each call returns the entity's
`activeConnections` value as it stands at call time, so a change to the
entity after construction is reflected. The accessor argument is the
captured entity's state at call time, so quantifying over `c'` and `g'`
quantifies over all mutations performed after construction. -/
theorem getActiveConnections_counter_or_live (dataSource : String)
    (c c' : Connection) (g g' : ConnectionGroup)
    (includeConnections includeSharingProfiles : JSVal) (f fg : Counter)
    (cac : Option Counter) :
    ((GroupListItem.fromConnection dataSource c includeSharingProfiles
        (some f)).getActiveConnections (Entity.conn c')
      = f dataSource (Entity.conn c'))
    ∧ ((GroupListItem.fromConnection dataSource c includeSharingProfiles
        none).getActiveConnections (Entity.conn c')
      = c'.activeConnections)
    ∧ ((GroupListItem.fromConnectionGroup dataSource g includeConnections
        includeSharingProfiles cac (some fg)).getActiveConnections
        (Entity.grp g')
      = fg dataSource (Entity.grp g'))
    ∧ ((GroupListItem.fromConnectionGroup dataSource g includeConnections
        includeSharingProfiles cac none).getActiveConnections
        (Entity.grp g')
      = g'.activeConnections) := by
  refine ⟨rfl, rfl, ?_, ?_⟩
  · rw [GroupListItem.fromConnectionGroup]
    rfl
  · rw [GroupListItem.fromConnectionGroup]
    rfl

/-- C7: for every `GroupListItem` whose type is neither the connection
type constant nor the connection-group type constant — including nodes
built by `fromSharingProfile` and nodes carrying an arbitrary custom type
tag — `getClientIdentifier` returns `null` (modelled as `none`; the
function is total, so no error can be raised). -/
theorem getClientIdentifier_null_for_other_types (item : GroupListItem)
    (h1 : item.type ≠ JSVal.str GroupListItemType.CONNECTION)
    (h2 : item.type ≠ JSVal.str GroupListItemType.CONNECTION_GROUP) :
    item.getClientIdentifier = none := by
  simp [GroupListItem.getClientIdentifier, h1, h2]

/-- Witness for C7 at the sharing-profile node from the spec
(`buildFromSharingProfile(ds, {identifier:"5", name:"X"})`) and at a node
with a custom type tag. -/
theorem getClientIdentifier_null_for_other_types_witness :
    ((GroupListItem.fromSharingProfile "ds"
        ⟨JSVal.str "5", JSVal.str "X"⟩).type
      ≠ JSVal.str GroupListItemType.CONNECTION)
    ∧ ((GroupListItem.fromSharingProfile "ds"
        ⟨JSVal.str "5", JSVal.str "X"⟩).type
      ≠ JSVal.str GroupListItemType.CONNECTION_GROUP)
    ∧ (GroupListItem.fromSharingProfile "ds"
        ⟨JSVal.str "5", JSVal.str "X"⟩).getClientIdentifier = none
    ∧ (GroupListItem.ofTemplate
        { type := JSVal.str "my-custom-tag" }).getClientIdentifier = none :=
  ⟨by decide, by decide,
    getClientIdentifier_null_for_other_types
      (GroupListItem.fromSharingProfile "ds" ⟨JSVal.str "5", JSVal.str "X"⟩)
      (by decide) (by decide),
    getClientIdentifier_null_for_other_types
      (GroupListItem.ofTemplate { type := JSVal.str "my-custom-tag" })
      (by decide) (by decide)⟩

/-- C9: the `children` field is never null or undefined (its model type is
`List GroupListItem`, and the constructor replaces an absent template
field by the empty array): a constructor call with no children supplied
yields `[]`, as does `fromSharingProfile`, which supplies none; the two
recursive builders always supply a genuine (possibly empty) list, shown
here at absent child collections. -/
theorem children_never_null (t : Template) (dataSource : String)
    (p : SharingProfile) (includeConnections includeSharingProfiles : JSVal)
    (cac cacg : Option Counter) (ht : t.children = none) :
    ((GroupListItem.ofTemplate t).children = [])
    ∧ ((GroupListItem.fromSharingProfile dataSource p).children = [])
    ∧ ((GroupListItem.fromConnection dataSource
        ⟨JSVal.undefined, JSVal.undefined, JSVal.undefined, JSVal.undefined,
          none⟩ includeSharingProfiles cac).children = [])
    ∧ ((GroupListItem.fromConnectionGroup dataSource
        (ConnectionGroup.mk JSVal.undefined JSVal.undefined JSVal.undefined
          JSVal.undefined none none) includeConnections
        includeSharingProfiles cac cacg).children = []) := by
  refine ⟨?_, rfl, rfl, ?_⟩
  · simp [GroupListItem.ofTemplate, GroupListItem.children, ht]
  · rw [GroupListItem.fromConnectionGroup]
    rfl

/-- Witness for C9 at the empty template. -/
theorem children_never_null_witness :
    (({} : Template).children = none)
    ∧ (((GroupListItem.ofTemplate {}).children = [])
    ∧ ((GroupListItem.fromSharingProfile "ds" exProfile1).children = [])
    ∧ ((GroupListItem.fromConnection "ds"
        ⟨JSVal.undefined, JSVal.undefined, JSVal.undefined, JSVal.undefined,
          none⟩ JSVal.undefined none).children = [])
    ∧ ((GroupListItem.fromConnectionGroup "ds"
        (ConnectionGroup.mk JSVal.undefined JSVal.undefined JSVal.undefined
          JSVal.undefined none none) JSVal.undefined JSVal.undefined
        none none).children = [])) :=
  ⟨rfl, children_never_null {} "ds" exProfile1 JSVal.undefined
    JSVal.undefined none none rfl⟩

/-- Helper: a `ConnectionGroup` always has positive size. -/
theorem ConnectionGroup.sizeOf_pos (g : ConnectionGroup) : 0 < sizeOf g := by
  cases g with
  | mk i n t a cc cg =>
    simp only [ConnectionGroup.mk.sizeOf_spec]
    omega

/-- Helper (flag irrelevance, group builder): any `includeConnections`
value other than the boolean `false` makes `fromConnectionGroup` produce
exactly the node produced with `true`, throughout the recursion. Strong
induction on the size of the group. -/
theorem fromConnectionGroup_flag_not_false (dataSource : String)
    (includeSharingProfiles : JSVal) (cac cacg : Option Counter)
    (v : JSVal) (hv : v ≠ JSVal.bool false) :
    ∀ (n : Nat) (g : ConnectionGroup), sizeOf g ≤ n →
      GroupListItem.fromConnectionGroup dataSource g v
          includeSharingProfiles cac cacg
        = GroupListItem.fromConnectionGroup dataSource g (JSVal.bool true)
          includeSharingProfiles cac cacg := by
  intro n
  induction n with
  | zero =>
      intro g hg
      exact absurd hg (by have := ConnectionGroup.sizeOf_pos g; omega)
  | succ n ih =>
      intro g hg
      cases g with
      | mk i nm ty a cc cg =>
        rw [GroupListItem.fromConnectionGroup,
          GroupListItem.fromConnectionGroup]
        cases cc with
        | none =>
            cases cg with
            | none => rfl
            | some gs =>
                have hmap : gs.attach.map (fun child =>
                    GroupListItem.fromConnectionGroup dataSource child.1 v
                      includeSharingProfiles cac cacg)
                  = gs.attach.map (fun child =>
                    GroupListItem.fromConnectionGroup dataSource child.1
                      (JSVal.bool true) includeSharingProfiles cac cacg) := by
                  refine List.map_congr_left fun child _ => ?_
                  refine ih child.1 ?_
                  have h1 : sizeOf child.1 < sizeOf gs :=
                    List.sizeOf_lt_of_mem child.2
                  simp only [ConnectionGroup.mk.sizeOf_spec,
                    Option.some.sizeOf_spec] at hg
                  omega
                simp only [ConnectionGroup.childConnections,
                  ConnectionGroup.childConnectionGroups, hmap]
        | some cs =>
            cases cg with
            | none =>
                simp only [ConnectionGroup.childConnections]
                simp [hv]
                rfl
            | some gs =>
                have hmap : gs.attach.map (fun child =>
                    GroupListItem.fromConnectionGroup dataSource child.1 v
                      includeSharingProfiles cac cacg)
                  = gs.attach.map (fun child =>
                    GroupListItem.fromConnectionGroup dataSource child.1
                      (JSVal.bool true) includeSharingProfiles cac cacg) := by
                  refine List.map_congr_left fun child _ => ?_
                  refine ih child.1 ?_
                  have h1 : sizeOf child.1 < sizeOf gs :=
                    List.sizeOf_lt_of_mem child.2
                  simp only [ConnectionGroup.mk.sizeOf_spec,
                    Option.some.sizeOf_spec] at hg
                  omega
                simp only [ConnectionGroup.childConnections,
                  ConnectionGroup.childConnectionGroups, hmap, hv]
                simp [hv]

/-- C10: the inclusion flags are tested with JS strict inequality against
the boolean `false`, so any value `v` that is not the boolean `false` —
including `undefined`, `null`, `0` and the empty string — makes
`fromConnection` (for `includeSharingProfiles`) and `fromConnectionGroup`
(for `includeConnections`) produce exactly the node produced with
`true`. -/
theorem inclusion_flags_strict_neq_false (dataSource : String)
    (c : Connection) (g : ConnectionGroup)
    (v includeSharingProfiles : JSVal) (cac cacg : Option Counter)
    (hv : v ≠ JSVal.bool false) :
    (GroupListItem.fromConnection dataSource c v cac
      = GroupListItem.fromConnection dataSource c (JSVal.bool true) cac)
    ∧ (GroupListItem.fromConnectionGroup dataSource g v
        includeSharingProfiles cac cacg
      = GroupListItem.fromConnectionGroup dataSource g (JSVal.bool true)
        includeSharingProfiles cac cacg) := by
  constructor
  · cases hsp : c.sharingProfiles with
    | none => simp [GroupListItem.fromConnection, hsp, hv]
    | some profiles => simp [GroupListItem.fromConnection, hsp, hv]
  · exact fromConnectionGroup_flag_not_false dataSource
      includeSharingProfiles cac cacg v hv (sizeOf g) g le_rfl

/-- Witness for C10 at `v = undefined` and `v = 0` on concrete entities. -/
theorem inclusion_flags_strict_neq_false_witness :
    (JSVal.undefined ≠ JSVal.bool false)
    ∧ (JSVal.num 0 ≠ JSVal.bool false)
    ∧ ((GroupListItem.fromConnection "ds" exConnection JSVal.undefined none
        = GroupListItem.fromConnection "ds" exConnection (JSVal.bool true)
          none)
      ∧ (GroupListItem.fromConnectionGroup "ds" exGroup JSVal.undefined
          (JSVal.bool true) none none
        = GroupListItem.fromConnectionGroup "ds" exGroup (JSVal.bool true)
          (JSVal.bool true) none none))
    ∧ ((GroupListItem.fromConnection "ds" exConnection (JSVal.num 0) none
        = GroupListItem.fromConnection "ds" exConnection (JSVal.bool true)
          none)
      ∧ (GroupListItem.fromConnectionGroup "ds" exGroup (JSVal.num 0)
          (JSVal.bool true) none none
        = GroupListItem.fromConnectionGroup "ds" exGroup (JSVal.bool true)
          (JSVal.bool true) none none)) :=
  ⟨by decide, by decide,
    inclusion_flags_strict_neq_false "ds" exConnection exGroup
      JSVal.undefined (JSVal.bool true) none none (by decide),
    inclusion_flags_strict_neq_false "ds" exConnection exGroup
      (JSVal.num 0) (JSVal.bool true) none none (by decide)⟩

/-- State-threading translation of `fromSharingProfile` (source lines
319-336), for the frame property: alongside the built node it returns the
source entity as it stands after the build, reconstructed from the field
accesses the source performs. The builder only reads
`sharingProfile.name` and `sharingProfile.identifier` and assigns no
field of the source object. -/
def GroupListItem.fromSharingProfileS (dataSource : String)
    (sharingProfile : SharingProfile) : GroupListItem × SharingProfile :=
  (GroupListItem.fromSharingProfile dataSource sharingProfile,
   { identifier := sharingProfile.identifier,
     name := sharingProfile.name })

/-- State-threading translation of `fromConnection` (source lines
171-211): returns the built node together with the connection as it
stands after the build. The child sharing profiles are threaded through
`fromSharingProfileS` exactly when the source iterates over them; the
builder assigns no field of the source object. -/
def GroupListItem.fromConnectionS (dataSource : String)
    (connection : Connection) (includeSharingProfiles : JSVal)
    (countActiveConnections : Option Counter) :
    GroupListItem × Connection :=
  let threadedProfiles : Option (List SharingProfile) :=
    match connection.sharingProfiles with
    | some profiles =>
        if includeSharingProfiles ≠ JSVal.bool false then
          some (profiles.map fun child =>
            (GroupListItem.fromSharingProfileS dataSource child).2)
        else some profiles
    | none => none
  (GroupListItem.fromConnection dataSource connection
      includeSharingProfiles countActiveConnections,
   { identifier := connection.identifier,
     name := connection.name,
     protocol := connection.protocol,
     activeConnections := connection.activeConnections,
     sharingProfiles := threadedProfiles })

/-- State-threading translation of `fromConnectionGroup` (source lines
251-302): returns the built node together with the connection group as it
stands after the build. Child connections and child groups are threaded
through the state-threading builders exactly when the source iterates
over them; the builder assigns no field of the source object. -/
def GroupListItem.fromConnectionGroupS (dataSource : String)
    (connectionGroup : ConnectionGroup)
    (includeConnections includeSharingProfiles : JSVal)
    (countActiveConnections countActiveConnectionGroups : Option Counter) :
    GroupListItem × ConnectionGroup :=
  let threadedConnections : Option (List Connection) :=
    match connectionGroup.childConnections with
    | some cs =>
        if includeConnections ≠ JSVal.bool false then
          some (cs.map fun child =>
            (GroupListItem.fromConnectionS dataSource child
              includeSharingProfiles countActiveConnections).2)
        else some cs
    | none => none
  let threadedGroups : Option (List ConnectionGroup) :=
    match hgs : connectionGroup.childConnectionGroups with
    | some gs =>
        some (gs.attach.map fun child =>
          (GroupListItem.fromConnectionGroupS dataSource child.1
            includeConnections includeSharingProfiles
            countActiveConnections countActiveConnectionGroups).2)
    | none => none
  (GroupListItem.fromConnectionGroup dataSource connectionGroup
      includeConnections includeSharingProfiles countActiveConnections
      countActiveConnectionGroups,
   ConnectionGroup.mk connectionGroup.identifier connectionGroup.name
     connectionGroup.type connectionGroup.activeConnections
     threadedConnections threadedGroups)
termination_by sizeOf connectionGroup
decreasing_by
  exact ConnectionGroup.sizeOf_lt_of_mem_childConnectionGroups hgs child.2

/-- Helper: the state-threading sharing-profile builder returns its
source entity unchanged. -/
theorem fromSharingProfileS_preserves (dataSource : String)
    (p : SharingProfile) :
    (GroupListItem.fromSharingProfileS dataSource p).2 = p := rfl

/-- Helper: the state-threading connection builder returns its source
entity unchanged. -/
theorem fromConnectionS_preserves (dataSource : String) (c : Connection)
    (includeSharingProfiles : JSVal) (cac : Option Counter) :
    (GroupListItem.fromConnectionS dataSource c includeSharingProfiles
      cac).2 = c := by
  cases c with
  | mk i n pr a sp =>
    cases sp with
    | none => rfl
    | some profiles =>
        by_cases hf : includeSharingProfiles ≠ JSVal.bool false
        · simp [GroupListItem.fromConnectionS, hf,
            GroupListItem.fromSharingProfileS]
        · simp [GroupListItem.fromConnectionS, hf]

/-- Helper: the state-threading group builder returns its source entity
unchanged, by strong induction on the size of the group. -/
theorem fromConnectionGroupS_preserves (dataSource : String)
    (includeConnections includeSharingProfiles : JSVal)
    (cac cacg : Option Counter) :
    ∀ (n : Nat) (g : ConnectionGroup), sizeOf g ≤ n →
      (GroupListItem.fromConnectionGroupS dataSource g includeConnections
        includeSharingProfiles cac cacg).2 = g := by
  intro n
  induction n with
  | zero =>
      intro g hg
      exact absurd hg (by have := ConnectionGroup.sizeOf_pos g; omega)
  | succ n ih =>
      intro g hg
      cases g with
      | mk i nm ty a cc cg =>
        rw [GroupListItem.fromConnectionGroupS]
        cases cg with
        | none =>
            cases cc with
            | none => rfl
            | some cs =>
                by_cases hf : includeConnections ≠ JSVal.bool false
                · simp [ConnectionGroup.childConnections,
                    ConnectionGroup.childConnectionGroups, hf,
                    fromConnectionS_preserves, ConnectionGroup.identifier, ConnectionGroup.name,
                    ConnectionGroup.type, ConnectionGroup.activeConnections]
                · simp [ConnectionGroup.childConnections,
                    ConnectionGroup.childConnectionGroups, hf, ConnectionGroup.identifier, ConnectionGroup.name,
                    ConnectionGroup.type, ConnectionGroup.activeConnections]
        | some gs =>
            have hmap : gs.attach.map (fun child =>
                (GroupListItem.fromConnectionGroupS dataSource child.1
                  includeConnections includeSharingProfiles cac cacg).2)
              = gs := by
              have h1 : gs.attach.map (fun child =>
                  (GroupListItem.fromConnectionGroupS dataSource child.1
                    includeConnections includeSharingProfiles cac
                    cacg).2)
                = gs.attach.map (fun child => child.1) := by
                refine List.map_congr_left fun child _ => ?_
                refine ih child.1 ?_
                have h2 : sizeOf child.1 < sizeOf gs :=
                  List.sizeOf_lt_of_mem child.2
                simp only [ConnectionGroup.mk.sizeOf_spec,
                  Option.some.sizeOf_spec] at hg
                omega
              rw [h1]
              exact List.attach_map_subtype_val gs
            cases cc with
            | none =>
                simp only [ConnectionGroup.childConnections,
                  ConnectionGroup.childConnectionGroups, hmap,
                  ConnectionGroup.identifier, ConnectionGroup.name,
                  ConnectionGroup.type, ConnectionGroup.activeConnections]
            | some cs =>
                by_cases hf : includeConnections ≠ JSVal.bool false
                · simp only [ConnectionGroup.childConnections,
                    ConnectionGroup.childConnectionGroups, hmap]
                  simp [hf, fromConnectionS_preserves, ConnectionGroup.identifier, ConnectionGroup.name,
                    ConnectionGroup.type, ConnectionGroup.activeConnections]
                · simp only [ConnectionGroup.childConnections,
                    ConnectionGroup.childConnectionGroups, hmap]
                  simp [hf, ConnectionGroup.identifier, ConnectionGroup.name,
                    ConnectionGroup.type, ConnectionGroup.activeConnections]

/-- C8: running `fromConnection`, `fromConnectionGroup` or
`fromSharingProfile` leaves the source entity and its descendants
unchanged. The source performs no assignment to any pre-existing object
(it only reads source fields and pushes onto its own fresh array); its
state-threading translations `fromSharingProfileS`, `fromConnectionS` and
`fromConnectionGroupS` make every such read explicit and return the
post-build entity, which equals the input. -/
theorem builders_do_not_mutate_source (dataSource : String)
    (p : SharingProfile) (c : Connection) (g : ConnectionGroup)
    (includeConnections includeSharingProfiles : JSVal)
    (cac cacg : Option Counter) :
    ((GroupListItem.fromSharingProfileS dataSource p).2 = p)
    ∧ ((GroupListItem.fromConnectionS dataSource c includeSharingProfiles
        cac).2 = c)
    ∧ ((GroupListItem.fromConnectionGroupS dataSource g includeConnections
        includeSharingProfiles cac cacg).2 = g) :=
  ⟨fromSharingProfileS_preserves dataSource p,
   fromConnectionS_preserves dataSource c includeSharingProfiles cac,
   fromConnectionGroupS_preserves dataSource includeConnections
     includeSharingProfiles cac cacg (sizeOf g) g le_rfl⟩
